import Mathlib

/-!
Shallow embedding of `src/pi_camera_server.py` (a Flask camera server for a
Raspberry Pi) and proofs about its camera-session state machine, its frame
relay, its configuration updates and its file download/delete guards.

The Python module's global mutable state (`camera`, `recording`,
`stream_active`, `latest_frame`, `frame_grabber_running`, `stream_config`,
`record_config`) is modelled as an explicit `ServerState` record that every
operation threads.  Calls into the hardware SDK (picamera2) can raise; each
operation therefore takes an explicit fault record saying which SDK call
raises during that invocation, covering every `try/except` path of the
source.  Each operation also returns the ordered list of SDK calls that
actually reached the device (`Ev`), which lets us state claims about
stop/close/reacquire sequencing.  Handles are identified by a freshness
counter; `openHandles` tracks handles that have been acquired and not yet
closed, so that a handle discarded without `close()` is visible as a leak.
-/

namespace PiCam

/-- Resolution / frame-rate dictionary, as the `stream_config` and
`record_config` dicts of the source (`width`, `height`, `fps`). -/
structure Config where
  width : Nat
  height : Nat
  fps : Nat
deriving DecidableEq

/-- A raw frame as returned by `camera.capture_array()` (an opaque byte
array; we model it as a list of bytes). -/
abbrev Frame := List Nat

/-- SDK calls that actually reached the hardware, in program order.  A call
whose fault flag is set raises instead and is not recorded. -/
inductive Ev where
  | stopCam (h : Nat)
  | closeCam (h : Nat)
  | acquireCam (h : Nat)
  | configureCam (h : Nat) (c : Config)
  | setControlsCam (h : Nat)
  | startCam (h : Nat)
  | startEncoder (h : Nat) (bitrate : Nat)
  | stopEncoder (h : Nat)
deriving DecidableEq

/-- The module-level mutable state of `pi_camera_server.py`:
`camera` (the global handle, `None` or an id), `recording`,
`stream_active`, `latest_frame`, `frame_grabber_running`, the two config
dicts, plus `nextHandle` (freshness counter for handle ids) and
`openHandles` (handles acquired and never closed, to make leaks visible). -/
structure ServerState where
  camera : Option Nat
  nextHandle : Nat
  recording : Bool
  stream_active : Bool
  latest_frame : Option Frame
  frame_grabber_running : Bool
  stream_config : Config
  record_config : Config
  openHandles : List Nat
deriving DecidableEq

/-- Fault schedule for one `init_camera()` call: which SDK call raises.
`prevStop`/`prevClose` are the `camera.stop()`/`camera.close()` of the
re-init teardown (their exceptions are caught and logged); `acquire` is
`Picamera2()`; `configure`, `setControls`, `start` are the corresponding
calls inside the big `try`. -/
structure InitFaults where
  prevStop : Bool
  prevClose : Bool
  acquire : Bool
  configure : Bool
  setControls : Bool
  start : Bool
deriving DecidableEq

/-- The all-succeed schedule for `init_camera`. -/
def noInitFaults : InitFaults := ⟨false, false, false, false, false, false⟩

/-- `init_camera()` (source lines 73-116).  If a previous handle exists it
is stopped and closed (both inside one `try`, so a failing `stop` skips the
`close`), discarded, and `stream_active` cleared.  Then a new handle is
acquired, configured with `stream_config`, given auto-exposure controls and
started; on success `stream_active` is set and the frame grabber (re)started.
Any raise inside the big `try` is caught by the `except` which only sets
`stream_active = False` and `camera = None` (no `close` of a handle acquired
in this attempt). -/
def init_camera (s0 : ServerState) (f : InitFaults) : ServerState × List Ev :=
  let td :=
    match s0.camera with
    | none => (s0, ([] : List Ev))
    | some h =>
      let closed := !f.prevStop && !f.prevClose
      let evs := if f.prevStop then [] else
        Ev.stopCam h :: (if f.prevClose then [] else [Ev.closeCam h])
      ({ s0 with camera := none, stream_active := false,
                 openHandles := if closed then s0.openHandles.erase h
                                else s0.openHandles }, evs)
  let s1 := td.1
  let evs1 := td.2
  if f.acquire then
    ({ s1 with stream_active := false, camera := none }, evs1)
  else
    let h := s1.nextHandle
    let s2 := { s1 with camera := some h, nextHandle := h + 1,
                        openHandles := h :: s1.openHandles }
    let evs2 := evs1 ++ [Ev.acquireCam h]
    if f.configure then
      ({ s2 with stream_active := false, camera := none }, evs2)
    else
      let evs3 := evs2 ++ [Ev.configureCam h s2.stream_config]
      if f.setControls then
        ({ s2 with stream_active := false, camera := none }, evs3)
      else
        let evs4 := evs3 ++ [Ev.setControlsCam h]
        if f.start then
          ({ s2 with stream_active := false, camera := none }, evs4)
        else
          ({ s2 with stream_active := true, frame_grabber_running := true },
           evs4 ++ [Ev.startCam h])

/-- Result of a JSON endpoint: the `jsonify` payload shapes used by the
recording and settings routes of the source. -/
inductive ApiResult where
  | ok (filename : List Char) (settings : Config)
  | okPlain
  | okMsg (msg : List Char)
  | err (msg : List Char)
deriving DecidableEq

/-- Fault schedule for one `start_recording` call.  `stopCam` and
`setControls` faults are caught and logged without re-raising (source lines
277-280 and 298-304); `makedirs`, `configure`, `start` and `encoder` faults
abort the sequence and enter the recovery `except`.  `recStopEnc`,
`recStop`, `recClose` are the individually-swallowed teardown calls of the
recovery block, and `recoverInit` is the schedule of the recovery
`init_camera()`. -/
structure RecFaults where
  makedirs : Bool
  stopCam : Bool
  configure : Bool
  setControls : Bool
  start : Bool
  encoder : Bool
  recStopEnc : Bool
  recStop : Bool
  recClose : Bool
  recoverInit : InitFaults
deriving DecidableEq

/-- The all-succeed schedule for `start_recording`. -/
def noRecFaults : RecFaults :=
  ⟨false, false, false, false, false, false, false, false, false, noInitFaults⟩

/-- The recovery `except` block of `start_recording` (source lines
339-365): clear `recording`, attempt `stop_recording`/`stop`/`close` on the
handle (each swallowed separately), discard the handle, re-run
`init_camera()`, and return the triggering error as the JSON message. -/
def recover_start (s : ServerState) (h : Nat) (f : RecFaults) (msg : List Char)
    (evs : List Ev) : ServerState × ApiResult × List Ev :=
  let evs1 := evs ++ (if f.recStopEnc then [] else [Ev.stopEncoder h])
              ++ (if f.recStop then [] else [Ev.stopCam h])
              ++ (if f.recClose then [] else [Ev.closeCam h])
  let s2 := { s with recording := false, camera := none,
                     openHandles := if f.recClose then s.openHandles
                                    else s.openHandles.erase h }
  let r := init_camera s2 f.recoverInit
  (r.1, ApiResult.err msg, evs1 ++ r.2)

/-- The output filename computed by `start_recording` from the timestamp. -/
def video_filename (ts : List Char) : List Char :=
  "/home/pi/videos/video_".data ++ ts ++ ".h264".data

/-- Bitrate tiering of `start_recording` (source lines 316-321). -/
def bitrateFor (w : Nat) : Nat :=
  if w ≥ 1920 then 20000000 else if w ≥ 1280 then 15000000 else 10000000

/-- `start_recording` (source lines 256-365), under the `recording_lock`.
Rejects if already recording or if no handle; otherwise stops the camera
(failure swallowed), stops the frame grabber, reconfigures the same handle
with `record_config`, sets controls (failure swallowed), restarts it,
starts the H264 encoder, and sets `recording`.  A raise at `makedirs`,
`configure`, `start` or the encoder enters `recover_start`. -/
def start_recording (s : ServerState) (ts : List Char) (f : RecFaults) :
    ServerState × ApiResult × List Ev :=
  if s.recording then (s, .err "Already recording".data, [])
  else
    match s.camera with
    | none => (s, .err "Camera not initialized".data, [])
    | some h =>
      if f.makedirs then recover_start s h f "makedirs failed".data []
      else
        let evs0 := if f.stopCam then [] else [Ev.stopCam h]
        let s0 := { s with frame_grabber_running := false }
        if f.configure then recover_start s0 h f "configure failed".data evs0
        else
          let evs1 := evs0 ++ [Ev.configureCam h s.record_config]
          let evs2 := evs1 ++ (if f.setControls then [] else [Ev.setControlsCam h])
          if f.start then recover_start s0 h f "start failed".data evs2
          else
            let evs3 := evs2 ++ [Ev.startCam h]
            if f.encoder then recover_start s0 h f "encoder failed".data evs3
            else
              ({ s0 with recording := true },
               .ok (video_filename ts) s.record_config,
               evs3 ++ [Ev.startEncoder h (bitrateFor s.record_config.width)])

/-- Fault schedule for one `stop_recording` call: the three teardown calls
(stop encoder, stop camera, close camera), each individually swallowed by
its own `try/except`, plus the schedule of the trailing `init_camera()`. -/
structure StopFaults where
  stopEnc : Bool
  stopCam : Bool
  closeCam : Bool
  reinit : InitFaults
deriving DecidableEq

/-- The all-succeed schedule for `stop_recording`. -/
def noStopFaults : StopFaults := ⟨false, false, false, noInitFaults⟩

/-- `stop_recording` (source lines 367-435), under the `recording_lock`.
Rejects if not recording; otherwise stops the encoder, stops and closes the
camera (each failure swallowed by its own `try`), clears `recording`, stops
the frame grabber, discards the handle and re-runs `init_camera()` with the
stream config.  Every statement of the success path is individually
guarded, so the route always returns success once past the precondition. -/
def stop_recording (s : ServerState) (f : StopFaults) :
    ServerState × ApiResult × List Ev :=
  if !s.recording then (s, .err "Not recording".data, [])
  else
    match s.camera with
    | none =>
      let s1 := { s with recording := false, frame_grabber_running := false,
                         camera := none }
      let r := init_camera s1 f.reinit
      (r.1, .okPlain, r.2)
    | some h =>
      let evs := (if f.stopEnc then [] else [Ev.stopEncoder h])
                 ++ (if f.stopCam then [] else [Ev.stopCam h])
                 ++ (if f.closeCam then [] else [Ev.closeCam h])
      let s1 := { s with recording := false, frame_grabber_running := false,
                         camera := none,
                         openHandles := if f.closeCam then s.openHandles
                                        else s.openHandles.erase h }
      let r := init_camera s1 f.reinit
      (r.1, .okPlain, evs ++ r.2)

/-- The spec's derived session mode: Recording iff the `recording` flag is
set, Preview iff a handle exists and not recording, else Uninitialized. -/
inductive Mode where
  | Uninitialized
  | Preview
  | Recording
deriving DecidableEq

/-- Mode of a server state, as derived from `recording` and `camera`. -/
def modeOf (s : ServerState) : Mode :=
  if s.recording then .Recording
  else if s.camera.isSome then .Preview
  else .Uninitialized

/-- One controller call: `start_recording` or `stop_recording`, with its
fault schedule (and timestamp for the former). -/
inductive CamOp where
  | startRec (ts : List Char) (f : RecFaults)
  | stopRec (f : StopFaults)
deriving DecidableEq

/-- Run one controller call, keeping only the state. -/
def runOp (s : ServerState) (o : CamOp) : ServerState :=
  match o with
  | .startRec ts f => (start_recording s ts f).1
  | .stopRec f => (stop_recording s f).1

/-- Run a sequence of controller calls one at a time. -/
def runOps (s : ServerState) (ops : List CamOp) : ServerState :=
  ops.foldl runOp s

/-- The session invariant: the `recording` flag is never set while the
global `camera` is `None`. -/
abbrev SessionInv (s : ServerState) : Prop :=
  s.recording = true → s.camera.isSome = true

/-- A controller call whose fault schedule makes every SDK call succeed. -/
def opFaultFree : CamOp → Bool
  | .startRec _ f => decide (f = noRecFaults)
  | .stopRec f => decide (f = noStopFaults)

/-- Every call of the sequence is fault-free. -/
abbrev FaultFreeOps (ops : List CamOp) : Prop :=
  ∀ o ∈ ops, opFaultFree o = true

/-- The fresh module state at import time (globals of lines 27-50). -/
def freshState : ServerState :=
  { camera := none, nextHandle := 0, recording := false, stream_active := false,
    latest_frame := none, frame_grabber_running := false,
    stream_config := ⟨640, 480, 30⟩, record_config := ⟨1920, 1080, 30⟩,
    openHandles := [] }

/-- The state after one successful `init_camera()` from the fresh state. -/
def previewState : ServerState := (init_camera freshState noInitFaults).1

/-- A two-call fault-free sequence: start then stop recording. -/
def ops1 : List CamOp := [CamOp.startRec [] noRecFaults, CamOp.stopRec noStopFaults]

/-- The state after a successful `start_recording` from `previewState`. -/
def recordingState : ServerState := (start_recording previewState [] noRecFaults).1

/-- Whether an SDK trace contains a `close()` call. -/
def hasCloseEv (l : List Ev) : Bool :=
  l.any fun e => match e with | Ev.closeCam _ => true | _ => false

/-- Whether an SDK trace contains a handle acquisition (`Picamera2()`). -/
def hasAcquireEv (l : List Ev) : Bool :=
  l.any fun e => match e with | Ev.acquireCam _ => true | _ => false

/-- Whether a JSON result is the success payload of `start_recording`. -/
def isOk : ApiResult → Bool
  | ApiResult.ok _ _ => true
  | _ => false

/-- The fault schedule that makes only `camera.set_controls` raise during
`start_recording`. -/
def controlsFaultRec : RecFaults := { noRecFaults with setControls := true }

/-- The torn-down state produced by the recovery block of
`start_recording` just before its `init_camera()` call. -/
def tornDown (s : ServerState) (h : Nat) (f : RecFaults) : ServerState :=
  { s with recording := false, camera := none,
           openHandles := if f.recClose then s.openHandles
                          else s.openHandles.erase h }

/-- A fault schedule that aborts the `start_recording` sequence (raises at
a step whose exception is re-raised rather than swallowed). -/
def abortsStart (f : RecFaults) : Bool :=
  f.makedirs || f.configure || f.start || f.encoder

/-- The fault schedule that makes only the H264 encoder start raise. -/
def encoderFaultRec : RecFaults := { noRecFaults with encoder := true }

/-- The fault schedule that makes only `camera.configure` raise during
`init_camera`. -/
def cfgFaultInit : InitFaults := { noInitFaults with configure := true }

/-- A JSON request body for the settings routes: each of `width`, `height`,
`fps` may be absent (`data.get(key, previous)` in the source). -/
structure SettingsReq where
  width : Option Nat
  height : Option Nat
  fps : Option Nat
deriving DecidableEq

/-- The `data.get(field, config[field])` merge done by both settings
routes: a present field is stored, an absent one keeps the previous value. -/
def mergeConfig (r : SettingsReq) (c : Config) : Config :=
  { width := r.width.getD c.width, height := r.height.getD c.height,
    fps := r.fps.getD c.fps }

/-- `update_stream_settings` (source lines 448-467): merge the partial
request into `stream_config`, then re-run `init_camera()` with the new
settings; the route answers success (`init_camera` never raises). -/
def update_stream_settings (s : ServerState) (r : SettingsReq) (f : InitFaults) :
    ServerState × ApiResult × List Ev :=
  let s1 := { s with stream_config := mergeConfig r s.stream_config }
  let i := init_camera s1 f
  (i.1, ApiResult.okMsg "Stream settings updated".data, i.2)

/-- `update_record_settings` (source lines 469-485): merge the partial
request into `record_config`; no re-initialization and no SDK call. -/
def update_record_settings (s : ServerState) (r : SettingsReq) :
    ServerState × ApiResult :=
  ({ s with record_config := mergeConfig r s.record_config },
   ApiResult.okMsg "Record settings updated".data)

/-- A concrete partial update: width and fps present, height absent. -/
def req0 : SettingsReq := ⟨some 320, none, some 15⟩

/-- ASCII bytes of a header string. -/
def asciiBytes (str : String) : List Nat := str.data.map Char.toNat

/-- The hard-coded 1x1 blank PNG served when no frame is available, byte
for byte as the source literal (lines 161 and 189). -/
def placeholderPNG : List Nat :=
  [137, 80, 78, 71, 13, 10, 26, 10, 0, 0, 0, 13, 73, 72, 68, 82,
   0, 0, 0, 1, 0, 0, 0, 1, 8, 2, 0, 0, 0, 144, 119, 83, 222,
   0, 0, 0, 12, 73, 68, 65, 84, 120, 156, 99, 248, 15, 0, 0, 1, 1, 0, 5, 24,
   108, 246, 0, 0, 0, 0, 73, 69, 78, 68, 174, 66, 96, 130]

/-- Model of the external `cv2.imencode('.jpg', frame, [IMWRITE_JPEG_QUALITY, q])`
call: an abstract injective encoding of the raw frame, tagged with the
quality constant it was invoked with. -/
def cv2_imencode_jpg (quality : Nat) (fr : Frame) : List Nat := quality :: fr

/-- One multipart body part of the MJPEG stream:
`--frame\r\nContent-Type: <type>\r\n\r\n<bytes>\r\n`, as assembled by the
yield statements of `generate_frames`. -/
def mjpegPart (ctype : String) (body : List Nat) : List Nat :=
  asciiBytes ("--frame\r\nContent-Type: " ++ ctype ++ "\r\n\r\n")
    ++ body ++ asciiBytes "\r\n"

/-- The body-producing core of one `generate_frames` iteration: serve the
blank PNG when the camera is unavailable or the shared slot was never
populated, otherwise the latest frame JPEG-encoded at the constant quality
70 (source lines 158-202). -/
def serve_latest (t : ServerState) : List Nat :=
  if !t.stream_active || t.camera.isNone then
    mjpegPart "image/png" placeholderPNG
  else
    match t.latest_frame with
    | none => mjpegPart "image/png" placeholderPNG
    | some fr => mjpegPart "image/jpeg" (cv2_imencode_jpg 70 fr)

/-- The first yield of one `generate_frames()` call (source lines
149-202): lazily re-run `init_camera` when the stream is inactive or the
handle is gone, then serve the latest frame or the placeholder. -/
def generate_frames_first (s : ServerState) (f : InitFaults) :
    ServerState × List Nat :=
  let s1 := if !s.stream_active || s.camera.isNone then (init_camera s f).1 else s
  (s1, serve_latest s1)

/-- One iteration of the frame grabber thread (source lines 122-133):
while the grabber runs and a handle exists, capture one raw array from the
camera and, under `latest_frame_lock`, replace the shared slot's entire
contents with it; a capture failure is logged and skipped. -/
def grabber_iter (s : ServerState) (captured : Frame)
    (captureFails : Bool) : ServerState :=
  if s.frame_grabber_running && s.camera.isSome then
    (if captureFails then s else { s with latest_frame := some captured })
  else s

/-- The `'/' in filename` security check of both file routes. -/
def containsSlash (l : List Char) : Bool := l.contains '/'

/-- The `'..' in filename` security check of both file routes: two
adjacent dots anywhere in the name. -/
def containsDotDot : List Char → Bool
  | c :: d :: rest => (c == '.' && d == '.') || containsDotDot (d :: rest)
  | _ => false

/-- Python's `str.replace('.h264', '.mp4')`: rewrite every (leftmost
first) occurrence. -/
def replDotH264 : List Char → List Char
  | '.' :: 'h' :: '2' :: '6' :: '4' :: rest =>
      '.' :: 'm' :: 'p' :: '4' :: replDotH264 rest
  | c :: rest => c :: replDotH264 rest
  | [] => []

/-- Python's `str.replace('.mp4', '.h264')`: rewrite every (leftmost
first) occurrence. -/
def replDotMp4 : List Char → List Char
  | '.' :: 'm' :: 'p' :: '4' :: rest =>
      '.' :: 'h' :: '2' :: '6' :: '4' :: replDotMp4 rest
  | c :: rest => c :: replDotMp4 rest
  | [] => []

/-- Whether a character list starts with a dot. -/
def headIsDot : List Char → Bool
  | d :: _ => d == '.'
  | [] => false

/-- The recordings directory hard-coded in both routes. -/
def videos_dir : List Char := "/home/pi/videos".data

/-- `os.path.join(video_dir, name)` for a relative name. -/
def pathJoin (d fn : List Char) : List Char := d ++ '/' :: fn

/-- Filesystem accesses performed by the file routes, in order. -/
inductive FsEv where
  | statPath (p : List Char)
  | readPath (p : List Char)
  | removePath (p : List Char)
  | ffmpegConv (src : List Char) (dst : List Char)
deriving DecidableEq

/-- The path(s) an access touches. -/
def fsEvPaths : FsEv → List (List Char)
  | .statPath p => [p]
  | .readPath p => [p]
  | .removePath p => [p]
  | .ffmpegConv a b => [a, b]

/-- Responses of the download route: a file transfer or a plain-text
status with an HTTP code. -/
inductive HttpResp where
  | fileOut (path : List Char) (downloadName : List Char)
  | text (msg : List Char) (code : Nat)
deriving DecidableEq

/-- Responses of the delete route. -/
inductive DelResp where
  | okDel
  | errDel (msg : List Char)
deriving DecidableEq

/-- `convert_h264_to_mp4` (source lines 625-659): reuse an existing MP4,
otherwise run ffmpeg from the H264 path to the replaced-suffix MP4 path
and report whether the output file appeared (`convCreates` models
ffmpeg succeeding). -/
def convert_h264_to_mp4 (fsys : List Char → Bool) (convCreates : Bool)
    (h264_path : List Char) : Option (List Char) × List FsEv :=
  let mp4_path := replDotH264 h264_path
  if fsys mp4_path then (some mp4_path, [FsEv.statPath mp4_path])
  else
    let evs := [FsEv.statPath mp4_path, FsEv.ffmpegConv h264_path mp4_path,
                FsEv.statPath mp4_path]
    if convCreates then (some mp4_path, evs) else (none, evs)

/-- `download_file` (source lines 532-572): refuse while recording, refuse
filenames containing `..` or `/`, convert H264 recordings to MP4 on
demand, then send the file.  `fsys` says which paths exist; the trace
records every filesystem access. -/
def download_file (rec : Bool) (fsys : List Char → Bool) (convCreates : Bool)
    (filename : List Char) : HttpResp × List FsEv :=
  if rec then (.text "Cannot download while recording".data 400, [])
  else if containsDotDot filename || containsSlash filename then
    (.text "Invalid filename".data 400, [])
  else if ".h264".data.isSuffixOf filename then
    let h264_path := pathJoin videos_dir filename
    if fsys h264_path = false then
      (.text "File not found".data 404, [FsEv.statPath h264_path])
    else
      let mp4_filename := replDotH264 filename
      let mp4_path := pathJoin videos_dir mp4_filename
      if fsys mp4_path then
        (.fileOut mp4_path mp4_filename,
         [FsEv.statPath h264_path, FsEv.statPath mp4_path,
          FsEv.statPath mp4_path, FsEv.readPath mp4_path])
      else
        let c := convert_h264_to_mp4 fsys convCreates h264_path
        let evs := FsEv.statPath h264_path :: FsEv.statPath mp4_path :: c.2
        match c.1 with
        | none => (.text "Conversion failed".data 500, evs)
        | some p =>
          if fsys p || convCreates then
            (.fileOut p mp4_filename, evs ++ [FsEv.statPath p, FsEv.readPath p])
          else
            (.text "File not found".data 404, evs ++ [FsEv.statPath p])
  else
    let filepath := pathJoin videos_dir filename
    if fsys filepath then
      (.fileOut filepath filename,
       [FsEv.statPath filepath, FsEv.readPath filepath])
    else
      (.text "File not found".data 404, [FsEv.statPath filepath])

/-- `delete_file` (source lines 574-613): refuse while recording, refuse
filenames containing `..` or `/`, remove the file and best-effort remove
its sibling of the other container format. -/
def delete_file (rec : Bool) (fsys : List Char → Bool) (removeOk : Bool)
    (filename : List Char) : DelResp × List FsEv :=
  if rec then (.errDel "Cannot delete while recording".data, [])
  else if containsDotDot filename || containsSlash filename then
    (.errDel "Invalid filename".data, [])
  else
    let filepath := pathJoin videos_dir filename
    if fsys filepath = false then
      (.errDel "File not found".data, [FsEv.statPath filepath])
    else if removeOk = false then
      (.errDel "remove failed".data,
       [FsEv.statPath filepath, FsEv.removePath filepath])
    else
      let evs0 := [FsEv.statPath filepath, FsEv.removePath filepath]
      if ".mp4".data.isSuffixOf filename then
        let h264_path := replDotMp4 filepath
        if fsys h264_path then
          (.okDel, evs0 ++ [FsEv.statPath h264_path, FsEv.removePath h264_path])
        else (.okDel, evs0 ++ [FsEv.statPath h264_path])
      else if ".h264".data.isSuffixOf filename then
        let mp4_path := replDotH264 filepath
        if fsys mp4_path then
          (.okDel, evs0 ++ [FsEv.statPath mp4_path, FsEv.removePath mp4_path])
        else (.okDel, evs0 ++ [FsEv.statPath mp4_path])
      else (.okDel, evs0)

/-- A path that names an entry directly inside `/home/pi/videos`: the
directory prefix followed by a single component free of separators and of
adjacent dots. -/
def entryInVideos (p : List Char) : Prop :=
  ∃ g, p = pathJoin videos_dir g ∧ containsSlash g = false ∧
       containsDotDot g = false

/-- `init_camera` never touches the `recording` flag. -/
theorem init_camera_recording (s : ServerState) (f : InitFaults) :
    (init_camera s f).1.recording = s.recording := by
  unfold init_camera
  cases hc : s.camera <;> dsimp <;> split_ifs <;> rfl

/-- `init_camera` never touches `stream_config`. -/
theorem init_camera_stream_config (s : ServerState) (f : InitFaults) :
    (init_camera s f).1.stream_config = s.stream_config := by
  unfold init_camera
  cases hc : s.camera <;> dsimp <;> split_ifs <;> rfl

/-- `init_camera` never touches `record_config`. -/
theorem init_camera_record_config (s : ServerState) (f : InitFaults) :
    (init_camera s f).1.record_config = s.record_config := by
  unfold init_camera
  cases hc : s.camera <;> dsimp <;> split_ifs <;> rfl

/-- `init_camera` never touches the shared `latest_frame` slot. -/
theorem init_camera_latest_frame (s : ServerState) (f : InitFaults) :
    (init_camera s f).1.latest_frame = s.latest_frame := by
  unfold init_camera
  cases hc : s.camera <;> dsimp <;> split_ifs <;> rfl

/-- A fault-free `init_camera` leaves a fresh live handle and an active
stream. -/
theorem init_camera_noFaults (s : ServerState) :
    (init_camera s noInitFaults).1.camera = some s.nextHandle ∧
    (init_camera s noInitFaults).1.stream_active = true := by
  unfold init_camera noInitFaults
  cases hc : s.camera <;> dsimp <;> exact ⟨rfl, rfl⟩

/-- The recovery path of `start_recording` always ends with the
`recording` flag cleared. -/
theorem recover_start_recording (s : ServerState) (h : Nat) (f : RecFaults)
    (msg : List Char) (evs : List Ev) :
    (recover_start s h f msg evs).1.recording = false := by
  unfold recover_start
  dsimp only
  rw [init_camera_recording]

/-- `start_recording` preserves the session invariant. -/
theorem start_recording_inv (s : ServerState) (ts : List Char) (f : RecFaults)
    (h : SessionInv s) : SessionInv (start_recording s ts f).1 := by
  unfold start_recording
  split
  · exact h
  · split
    · exact h
    next k hc =>
      dsimp only
      split_ifs <;> simp [SessionInv, recover_start_recording, hc]

/-- `stop_recording` preserves the session invariant. -/
theorem stop_recording_inv (s : ServerState) (f : StopFaults)
    (h : SessionInv s) : SessionInv (stop_recording s f).1 := by
  unfold stop_recording
  split
  · exact h
  · split <;>
      · dsimp only
        intro hrec
        rw [init_camera_recording] at hrec
        simp at hrec

/-- One controller call preserves the session invariant. -/
theorem runOp_inv (s : ServerState) (o : CamOp) (h : SessionInv s) :
    SessionInv (runOp s o) := by
  cases o with
  | startRec ts f => exact start_recording_inv s ts f h
  | stopRec f => exact stop_recording_inv s f h

/-- A fault-free controller call keeps a live handle live. -/
theorem runOp_faultfree_camera (s : ServerState) (o : CamOp)
    (hcam : s.camera.isSome = true) (hff : opFaultFree o = true) :
    (runOp s o).camera.isSome = true := by
  cases o with
  | startRec ts f =>
    have hf : f = noRecFaults := by simpa [opFaultFree] using hff
    subst hf
    show (start_recording s ts noRecFaults).1.camera.isSome = true
    unfold start_recording
    split
    · exact hcam
    · split
      next hc => rw [hc] at hcam; simp at hcam
      next k hc => simp [noRecFaults, hc]
  | stopRec f =>
    have hf : f = noStopFaults := by simpa [opFaultFree] using hff
    subst hf
    show (stop_recording s noStopFaults).1.camera.isSome = true
    unfold stop_recording
    split
    · exact hcam
    · split <;>
        (dsimp only [noStopFaults]
         rw [(init_camera_noFaults _).1]
         rfl)

/-- Any sequence of controller calls preserves the session invariant. -/
theorem runOps_inv (s : ServerState) (ops : List CamOp) (h : SessionInv s) :
    SessionInv (runOps s ops) := by
  induction ops generalizing s with
  | nil => exact h
  | cons o rest ih => exact ih _ (runOp_inv s o h)

/-- A fault-free sequence of controller calls keeps a live handle live. -/
theorem runOps_faultfree_camera (s : ServerState) (ops : List CamOp)
    (hcam : s.camera.isSome = true) (hff : FaultFreeOps ops) :
    (runOps s ops).camera.isSome = true := by
  induction ops generalizing s with
  | nil => exact hcam
  | cons o rest ih =>
    exact ih _ (runOp_faultfree_camera s o hcam (hff o (by simp)))
      (fun x hx => hff x (by simp [hx]))

/-- Under the session invariant, a non-Uninitialized mode implies a live
handle. -/
theorem modeOf_ne_uninit_camera (t : ServerState) (hinv : SessionInv t)
    (hm : modeOf t ≠ Mode.Uninitialized) : t.camera.isSome = true := by
  unfold modeOf at hm
  by_cases hr : t.recording = true
  · exact hinv hr
  · by_cases hs : t.camera.isSome = true
    · exact hs
    · simp [hr, hs] at hm

/-- A live handle puts the derived mode in {Preview, Recording}. -/
theorem modeOf_of_camera (t : ServerState) (hs : t.camera.isSome = true) :
    modeOf t = Mode.Preview ∨ modeOf t = Mode.Recording := by
  unfold modeOf
  by_cases hr : t.recording = true <;> simp [hr, hs]

/-- C1: for every sequence of `start_recording`/`stop_recording` calls
issued one at a time from a session satisfying the invariant, after each
completed call the derived mode is a single value (never Recording and
Preview at once), the `recording` flag is never set while `camera` is
`None`, the handle is live whenever the mode is not Uninitialized, and —
when every SDK call succeeds, starting from an initialized session — the
mode stays in {Preview, Recording}. -/
theorem session_mode_invariant (s : ServerState) (ops : List CamOp)
    (hinv : SessionInv s) :
    SessionInv (runOps s ops) ∧
    ¬ (modeOf (runOps s ops) = Mode.Recording ∧
       modeOf (runOps s ops) = Mode.Preview) ∧
    (modeOf (runOps s ops) ≠ Mode.Uninitialized →
       (runOps s ops).camera.isSome = true) ∧
    (s.camera.isSome = true → FaultFreeOps ops →
       (runOps s ops).camera.isSome = true ∧
       (modeOf (runOps s ops) = Mode.Preview ∨
        modeOf (runOps s ops) = Mode.Recording)) := by
  have h1 := runOps_inv s ops hinv
  refine ⟨h1, ?_, fun hm => modeOf_ne_uninit_camera _ h1 hm, fun hcam hff => ?_⟩
  · rintro ⟨ha, hb⟩
    rw [ha] at hb
    exact Mode.noConfusion hb
  · have h2 := runOps_faultfree_camera s ops hcam hff
    exact ⟨h2, modeOf_of_camera _ h2⟩

/-- Witness for C1 at a concrete initialized state and call sequence. -/
theorem session_mode_invariant_witness :
    SessionInv (runOps previewState ops1) ∧
    ¬ (modeOf (runOps previewState ops1) = Mode.Recording ∧
       modeOf (runOps previewState ops1) = Mode.Preview) ∧
    (modeOf (runOps previewState ops1) ≠ Mode.Uninitialized →
       (runOps previewState ops1).camera.isSome = true) ∧
    (previewState.camera.isSome = true → FaultFreeOps ops1 →
       (runOps previewState ops1).camera.isSome = true ∧
       (modeOf (runOps previewState ops1) = Mode.Preview ∨
        modeOf (runOps previewState ops1) = Mode.Recording)) :=
  session_mode_invariant previewState ops1 (by decide)

/-- C3: calling `start_recording` while already recording returns the
structured error `Already recording` and leaves the whole module state (and
the SDK) untouched. -/
theorem already_recording_rejected (s : ServerState) (ts : List Char)
    (f : RecFaults) (h : s.recording = true) :
    start_recording s ts f = (s, ApiResult.err "Already recording".data, []) := by
  unfold start_recording
  simp [h]

/-- Witness for C3 at a concrete recording state. -/
theorem already_recording_rejected_witness :
    start_recording recordingState [] noRecFaults
      = (recordingState, ApiResult.err "Already recording".data, []) :=
  already_recording_rejected recordingState [] noRecFaults (by decide)

/-- C4: calling `stop_recording` while not recording returns the structured
error `Not recording` and leaves the whole module state (and the SDK)
untouched. -/
theorem not_recording_rejected (s : ServerState) (f : StopFaults)
    (h : s.recording = false) :
    stop_recording s f = (s, ApiResult.err "Not recording".data, []) := by
  unfold stop_recording
  simp [h]

/-- Witness for C4 at the concrete preview state. -/
theorem not_recording_rejected_witness :
    stop_recording previewState noStopFaults
      = (previewState, ApiResult.err "Not recording".data, []) :=
  not_recording_rejected previewState noStopFaults (by decide)

/-- C2 counterexample: a successful `start_recording` from Preview keeps
the very same hardware handle — its SDK trace contains no `close()` and no
reacquisition, so the Preview→Recording transition does not pass through a
release/reacquire of the handle. -/
theorem begin_recording_no_handle_cycle :
    isOk (start_recording previewState [] noRecFaults).2.1 = true ∧
    (start_recording previewState [] noRecFaults).1.camera = previewState.camera ∧
    previewState.camera = some 0 ∧
    hasCloseEv (start_recording previewState [] noRecFaults).2.2 = false ∧
    hasAcquireEv (start_recording previewState [] noRecFaults).2.2 = false := by
  decide

/-- C2 amended: both transitions stop the current capture and apply the new
configuration before restarting, but only `stop_recording`
(Recording→Preview) performs the full stop/close/discard/reacquire cycle;
`start_recording` (Preview→Recording) stops and reconfigures the same
handle in place. -/
theorem mode_transition_handle_discipline (s : ServerState) (h : Nat)
    (ts : List Char) (hcam : s.camera = some h) :
    (s.recording = false →
       start_recording s ts noRecFaults
         = ({ s with frame_grabber_running := false, recording := true },
            ApiResult.ok (video_filename ts) s.record_config,
            [Ev.stopCam h, Ev.configureCam h s.record_config,
             Ev.setControlsCam h, Ev.startCam h,
             Ev.startEncoder h (bitrateFor s.record_config.width)])) ∧
    (s.recording = true →
       (stop_recording s noStopFaults).2.2
         = [Ev.stopEncoder h, Ev.stopCam h, Ev.closeCam h,
            Ev.acquireCam s.nextHandle,
            Ev.configureCam s.nextHandle s.stream_config,
            Ev.setControlsCam s.nextHandle, Ev.startCam s.nextHandle] ∧
       (stop_recording s noStopFaults).1.camera = some s.nextHandle) := by
  constructor
  · intro hrec
    unfold start_recording
    simp [hrec, hcam, noRecFaults]
  · intro hrec
    unfold stop_recording
    simp [hrec, hcam, noStopFaults, noInitFaults, init_camera]

/-- Witness for C2's amended statement at the concrete recording state. -/
theorem mode_transition_handle_discipline_witness :
    (recordingState.recording = false →
       start_recording recordingState [] noRecFaults
         = ({ recordingState with frame_grabber_running := false, recording := true },
            ApiResult.ok (video_filename []) recordingState.record_config,
            [Ev.stopCam 0, Ev.configureCam 0 recordingState.record_config,
             Ev.setControlsCam 0, Ev.startCam 0,
             Ev.startEncoder 0 (bitrateFor recordingState.record_config.width)])) ∧
    (recordingState.recording = true →
       (stop_recording recordingState noStopFaults).2.2
         = [Ev.stopEncoder 0, Ev.stopCam 0, Ev.closeCam 0,
            Ev.acquireCam recordingState.nextHandle,
            Ev.configureCam recordingState.nextHandle recordingState.stream_config,
            Ev.setControlsCam recordingState.nextHandle,
            Ev.startCam recordingState.nextHandle] ∧
       (stop_recording recordingState noStopFaults).1.camera
         = some recordingState.nextHandle) :=
  mode_transition_handle_discipline recordingState 0 [] (by decide)

/-- C5 counterexample: an SDK failure in the middle of the
`start_recording` sequence (at `set_controls`) is swallowed: the operation
performs no teardown, sets `recording`, and returns success instead of the
triggering error. -/
theorem start_failure_not_surfaced :
    (start_recording previewState [] controlsFaultRec).2.1
      = ApiResult.ok (video_filename []) ⟨1920, 1080, 30⟩ ∧
    (start_recording previewState [] controlsFaultRec).1.recording = true ∧
    hasCloseEv (start_recording previewState [] controlsFaultRec).2.2 = false := by
  decide

/-- A state whose `recording` flag is clear has derived mode Preview or
Uninitialized. -/
theorem modeOf_not_recording (t : ServerState) (h : t.recording = false) :
    modeOf t = Mode.Preview ∨ modeOf t = Mode.Uninitialized := by
  unfold modeOf
  by_cases hs : t.camera.isSome = true <;> simp [h, hs]

/-- The recovery path of `start_recording` returns the triggering error,
clears `recording`, lands in Preview or Uninitialized, and is exactly a
re-run of `init_camera` on a torn-down state with the same stream config. -/
theorem recover_start_goal (s : ServerState) (h : Nat) (f : RecFaults)
    (msg : List Char) (evs : List Ev) :
    (∃ m, (recover_start s h f msg evs).2.1 = ApiResult.err m) ∧
    (recover_start s h f msg evs).1.recording = false ∧
    (modeOf (recover_start s h f msg evs).1 = Mode.Preview ∨
     modeOf (recover_start s h f msg evs).1 = Mode.Uninitialized) ∧
    (∃ s2, s2.camera = none ∧ s2.recording = false ∧
       s2.stream_config = s.stream_config ∧
       (recover_start s h f msg evs).1 = (init_camera s2 f.recoverInit).1) := by
  refine ⟨⟨msg, rfl⟩, recover_start_recording s h f msg evs, ?_, ?_⟩
  · exact modeOf_not_recording _ (recover_start_recording s h f msg evs)
  · exact ⟨tornDown s h f, rfl, rfl, rfl, rfl⟩

/-- C5 amended: every failure that aborts the `start_recording` sequence
(`makedirs`, `configure`, `start` or the encoder — but not `camera.stop` or
`set_controls`, whose exceptions are logged and skipped) triggers full
teardown and a re-run of `init_camera` with the unchanged stream config; on
return `recording` is clear, the mode is Preview or Uninitialized, and the
triggering error is returned as a structured error. -/
theorem start_abort_recovers (s : ServerState) (ts : List Char)
    (f : RecFaults) (h : Nat) (hrec : s.recording = false)
    (hcam : s.camera = some h) (habort : abortsStart f = true) :
    (∃ m, (start_recording s ts f).2.1 = ApiResult.err m) ∧
    (start_recording s ts f).1.recording = false ∧
    (modeOf (start_recording s ts f).1 = Mode.Preview ∨
     modeOf (start_recording s ts f).1 = Mode.Uninitialized) ∧
    (∃ s2, s2.camera = none ∧ s2.recording = false ∧
       s2.stream_config = s.stream_config ∧
       (start_recording s ts f).1 = (init_camera s2 f.recoverInit).1) := by
  unfold start_recording
  simp only [hrec, hcam, Bool.false_eq_true, if_false]
  by_cases h1 : f.makedirs = true
  · simp only [h1, if_true]
    exact recover_start_goal s h f _ []
  · simp only [h1, Bool.false_eq_true, if_false]
    by_cases h2 : f.configure = true
    · simp only [h2, if_true]
      exact recover_start_goal _ h f _ _
    · simp only [h2, Bool.false_eq_true, if_false]
      by_cases h3 : f.start = true
      · simp only [h3, if_true]
        exact recover_start_goal _ h f _ _
      · simp only [h3, Bool.false_eq_true, if_false]
        by_cases h4 : f.encoder = true
        · simp only [h4, if_true]
          exact recover_start_goal _ h f _ _
        · exfalso
          simp [abortsStart, h1, h2, h3, h4] at habort

/-- Witness for C5's amended statement at the concrete preview state with
an encoder failure. -/
theorem start_abort_recovers_witness :
    (∃ m, (start_recording previewState [] encoderFaultRec).2.1 = ApiResult.err m) ∧
    (start_recording previewState [] encoderFaultRec).1.recording = false ∧
    (modeOf (start_recording previewState [] encoderFaultRec).1 = Mode.Preview ∨
     modeOf (start_recording previewState [] encoderFaultRec).1 = Mode.Uninitialized) ∧
    (∃ s2, s2.camera = none ∧ s2.recording = false ∧
       s2.stream_config = previewState.stream_config ∧
       (start_recording previewState [] encoderFaultRec).1
         = (init_camera s2 encoderFaultRec.recoverInit).1) :=
  start_abort_recovers previewState [] encoderFaultRec 0 (by decide) (by decide)
    (by decide)

/-- C6 counterexample: when `camera.configure` raises inside
`init_camera`, the session does end Uninitialized (`camera = None`,
`stream_active = False`), but the handle acquired in the failing attempt is
discarded without ever being closed — the trace has no `close()` for it and
it stays open. -/
theorem init_failure_leaks_handle :
    (init_camera freshState cfgFaultInit).1.camera = none ∧
    (init_camera freshState cfgFaultInit).1.stream_active = false ∧
    (init_camera freshState cfgFaultInit).1.openHandles = [0] ∧
    Ev.closeCam 0 ∉ (init_camera freshState cfgFaultInit).2 := by
  decide

/-- C6 amended: if any SDK call raises during `init_camera`, the session
ends Uninitialized (`stream_active` false and `camera = None`); but a
handle acquired during the failing attempt is discarded without being
closed (only a pre-existing handle gets a stop/close, in the teardown that
precedes the attempt). -/
theorem init_failure_uninitialized (s : ServerState) (f : InitFaults)
    (hfail : (f.acquire || f.configure || f.setControls || f.start) = true) :
    (init_camera s f).1.camera = none ∧
    (init_camera s f).1.stream_active = false ∧
    (s.camera = none → f.acquire = false →
       s.nextHandle ∈ (init_camera s f).1.openHandles ∧
       Ev.closeCam s.nextHandle ∉ (init_camera s f).2) := by
  unfold init_camera
  cases hc : s.camera <;>
    (dsimp only
     split_ifs with h1 h2 h3 h4 <;>
       simp_all [List.mem_cons])

/-- Witness for C6's amended statement at the fresh state with a configure
failure. -/
theorem init_failure_uninitialized_witness :
    (init_camera freshState cfgFaultInit).1.camera = none ∧
    (init_camera freshState cfgFaultInit).1.stream_active = false ∧
    (freshState.camera = none → cfgFaultInit.acquire = false →
       freshState.nextHandle ∈ (init_camera freshState cfgFaultInit).1.openHandles ∧
       Ev.closeCam freshState.nextHandle ∉ (init_camera freshState cfgFaultInit).2) :=
  init_failure_uninitialized freshState cfgFaultInit (by decide)

/-- C7: both settings routes accept partial updates — absent fields keep
their previous value, present fields are stored — and a stream-config
update is exactly a session re-initialize with the merged config, while a
record-config update only rewrites `record_config` and performs no SDK
call. -/
theorem settings_partial_updates (s : ServerState) (r : SettingsReq)
    (f : InitFaults) :
    (update_stream_settings s r f).1.stream_config = mergeConfig r s.stream_config ∧
    (∀ c : Config,
      (r.width = none → (mergeConfig r c).width = c.width) ∧
      (∀ w, r.width = some w → (mergeConfig r c).width = w) ∧
      (r.height = none → (mergeConfig r c).height = c.height) ∧
      (∀ v, r.height = some v → (mergeConfig r c).height = v) ∧
      (r.fps = none → (mergeConfig r c).fps = c.fps) ∧
      (∀ v, r.fps = some v → (mergeConfig r c).fps = v)) ∧
    update_stream_settings s r f
      = ((init_camera { s with stream_config := mergeConfig r s.stream_config } f).1,
         ApiResult.okMsg "Stream settings updated".data,
         (init_camera { s with stream_config := mergeConfig r s.stream_config } f).2) ∧
    update_record_settings s r
      = ({ s with record_config := mergeConfig r s.record_config },
         ApiResult.okMsg "Record settings updated".data) := by
  refine ⟨?_, ?_, rfl, rfl⟩
  · show (init_camera _ f).1.stream_config = mergeConfig r s.stream_config
    rw [init_camera_stream_config]
  · intro c
    refine ⟨?_, ?_, ?_, ?_, ?_, ?_⟩ <;> intros <;> simp_all [mergeConfig]

/-- Witness for C7 at the concrete preview state and a partial request. -/
theorem settings_partial_updates_witness :
    (update_stream_settings previewState req0 noInitFaults).1.stream_config
      = mergeConfig req0 previewState.stream_config ∧
    (∀ c : Config,
      (req0.width = none → (mergeConfig req0 c).width = c.width) ∧
      (∀ w, req0.width = some w → (mergeConfig req0 c).width = w) ∧
      (req0.height = none → (mergeConfig req0 c).height = c.height) ∧
      (∀ v, req0.height = some v → (mergeConfig req0 c).height = v) ∧
      (req0.fps = none → (mergeConfig req0 c).fps = c.fps) ∧
      (∀ v, req0.fps = some v → (mergeConfig req0 c).fps = v)) ∧
    update_stream_settings previewState req0 noInitFaults
      = ((init_camera { previewState with
            stream_config := mergeConfig req0 previewState.stream_config }
            noInitFaults).1,
         ApiResult.okMsg "Stream settings updated".data,
         (init_camera { previewState with
            stream_config := mergeConfig req0 previewState.stream_config }
            noInitFaults).2) ∧
    update_record_settings previewState req0
      = ({ previewState with
           record_config := mergeConfig req0 previewState.record_config },
         ApiResult.okMsg "Record settings updated".data) :=
  settings_partial_updates previewState req0 noInitFaults

/-- Every serving branch emits a well-formed multipart part. -/
theorem serve_latest_shape (t : ServerState) :
    ∃ body, serve_latest t = mjpegPart "image/png" body ∨
            serve_latest t = mjpegPart "image/jpeg" body := by
  unfold serve_latest
  split_ifs
  · exact ⟨placeholderPNG, Or.inl rfl⟩
  · split
    · exact ⟨placeholderPNG, Or.inl rfl⟩
    · exact ⟨_, Or.inr rfl⟩

/-- An empty slot is always served as the placeholder part. -/
theorem serve_latest_none (t : ServerState) (hl : t.latest_frame = none) :
    serve_latest t = mjpegPart "image/png" placeholderPNG := by
  unfold serve_latest
  split_ifs
  · rfl
  · rw [hl]

/-- A populated slot on a live stream is served as the frame encoded at
the constant quality 70. -/
theorem serve_latest_some (t : ServerState) (fr : Frame)
    (hl : t.latest_frame = some fr) (hs : t.stream_active = true)
    (hc : t.camera.isSome = true) :
    serve_latest t = mjpegPart "image/jpeg" (cv2_imencode_jpg 70 fr) := by
  unfold serve_latest
  have hcond : (!t.stream_active || t.camera.isNone) = false := by
    cases ho : t.camera <;> simp_all
  rw [hcond]
  simp only [Bool.false_eq_true, if_false]
  rw [hl]

/-- C8: the frame-query operation is total — for every session state and
fault schedule its first yield is a well-formed multipart part holding an
encoded camera frame or the fixed placeholder; whenever the shared slot
was never populated (camera available or not, any number of callers), the
served bytes are exactly the placeholder part; and a populated slot on a
live stream is served as the JPEG-encoded frame. -/
theorem frame_query_wellformed (s : ServerState) (f : InitFaults) :
    (∃ body, (generate_frames_first s f).2 = mjpegPart "image/png" body ∨
             (generate_frames_first s f).2 = mjpegPart "image/jpeg" body) ∧
    (s.latest_frame = none →
       (generate_frames_first s f).2 = mjpegPart "image/png" placeholderPNG) ∧
    (∀ fr, s.latest_frame = some fr → s.stream_active = true →
       s.camera.isSome = true →
       (generate_frames_first s f).2
         = mjpegPart "image/jpeg" (cv2_imencode_jpg 70 fr)) := by
  refine ⟨?_, ?_, ?_⟩
  · unfold generate_frames_first
    dsimp only
    split_ifs <;> exact serve_latest_shape _
  · intro hl
    unfold generate_frames_first
    dsimp only
    split_ifs with h1
    · exact serve_latest_none _ (by rw [init_camera_latest_frame, hl])
    · exact serve_latest_none _ hl
  · intro fr hl hs hc
    unfold generate_frames_first
    have hcond : (!s.stream_active || s.camera.isNone) = false := by
      cases ho : s.camera <;> simp_all
    rw [hcond]
    simp only [Bool.false_eq_true, if_false]
    exact serve_latest_some s fr hl hs hc

/-- Witness for C8 at the concrete preview state (slot never populated). -/
theorem frame_query_wellformed_witness :
    (∃ body,
       (generate_frames_first previewState noInitFaults).2
         = mjpegPart "image/png" body ∨
       (generate_frames_first previewState noInitFaults).2
         = mjpegPart "image/jpeg" body) ∧
    (previewState.latest_frame = none →
       (generate_frames_first previewState noInitFaults).2
         = mjpegPart "image/png" placeholderPNG) ∧
    (∀ fr, previewState.latest_frame = some fr →
       previewState.stream_active = true →
       previewState.camera.isSome = true →
       (generate_frames_first previewState noInitFaults).2
         = mjpegPart "image/jpeg" (cv2_imencode_jpg 70 fr)) :=
  frame_query_wellformed previewState noInitFaults

/-- C9 counterexample: the relay stores the raw captured array in the
shared slot, not its encoding — the slot after a grab holds the captured
bytes and differs from the quality-70 encoding of that frame. -/
theorem relay_stores_raw_not_encoded :
    (grabber_iter previewState [1, 2, 3] false).latest_frame = some [1, 2, 3] ∧
    (grabber_iter previewState [1, 2, 3] false).latest_frame
      ≠ some (cv2_imencode_jpg 70 [1, 2, 3]) := by
  decide

/-- C9 amended: on each iteration the relay captures one raw frame and
replaces the entire contents of the shared slot with it (under the slot
lock, so readers see a complete frame, never a partial one); the encoding
at the fixed constant quality 70 happens in the serving path, where every
reader of a populated slot obtains the complete frame consistently encoded
at that same constant quality. -/
theorem relay_raw_slot_replace (s : ServerState) (captured : Frame)
    (hrun : s.frame_grabber_running = true) (hcam : s.camera.isSome = true) :
    (grabber_iter s captured false).latest_frame = some captured ∧
    (∀ t : ServerState, t.latest_frame = some captured →
       t.stream_active = true → t.camera.isSome = true →
       serve_latest t = mjpegPart "image/jpeg" (cv2_imencode_jpg 70 captured)) := by
  constructor
  · unfold grabber_iter
    simp [hrun, hcam]
  · intro t hl hs hc
    exact serve_latest_some t captured hl hs hc

/-- Witness for C9's amended statement at the concrete preview state. -/
theorem relay_raw_slot_replace_witness :
    (grabber_iter previewState [5, 6] false).latest_frame = some [5, 6] ∧
    (∀ t : ServerState, t.latest_frame = some [5, 6] →
       t.stream_active = true → t.camera.isSome = true →
       serve_latest t = mjpegPart "image/jpeg" (cv2_imencode_jpg 70 [5, 6])) :=
  relay_raw_slot_replace previewState [5, 6] (by decide) (by decide)

theorem containsDotDot_cons (c : Char) (l : List Char) :
    containsDotDot (c :: l)
      = ((c == '.' && headIsDot l) || containsDotDot l) := by
  cases l <;> simp [containsDotDot, headIsDot]

theorem replDotH264_slash (l : List Char) :
    containsSlash (replDotH264 l) = containsSlash l := by
  induction l using replDotH264.induct <;>
    simp_all [replDotH264, containsSlash]

theorem replDotH264_head (l : List Char) :
    headIsDot (replDotH264 l) = headIsDot l := by
  induction l using replDotH264.induct <;> simp [replDotH264, headIsDot]

theorem replDotH264_dotdot (l : List Char) (h : containsDotDot l = false) :
    containsDotDot (replDotH264 l) = false := by
  induction l using replDotH264.induct <;>
    simp_all [replDotH264, containsDotDot_cons, replDotH264_head]
  rfl

theorem replDotMp4_slash (l : List Char) :
    containsSlash (replDotMp4 l) = containsSlash l := by
  induction l using replDotMp4.induct <;>
    simp_all [replDotMp4, containsSlash]

theorem replDotMp4_head (l : List Char) :
    headIsDot (replDotMp4 l) = headIsDot l := by
  induction l using replDotMp4.induct <;> simp [replDotMp4, headIsDot]

theorem replDotMp4_dotdot (l : List Char) (h : containsDotDot l = false) :
    containsDotDot (replDotMp4 l) = false := by
  induction l using replDotMp4.induct <;>
    simp_all [replDotMp4, containsDotDot_cons, replDotMp4_head]
  rfl

theorem entry_join (g : List Char) (h1 : containsSlash g = false)
    (h2 : containsDotDot g = false) : entryInVideos (pathJoin videos_dir g) :=
  ⟨g, rfl, h1, h2⟩

theorem replDotH264_join (g : List Char) :
    replDotH264 (pathJoin videos_dir g) = pathJoin videos_dir (replDotH264 g) :=
  rfl

theorem replDotMp4_join (g : List Char) :
    replDotMp4 (pathJoin videos_dir g) = pathJoin videos_dir (replDotMp4 g) :=
  rfl

/-- Every path the download route touches, for a guard-passing filename,
is the join of the videos directory with the filename or its
suffix-replaced sibling. -/
theorem download_file_paths (filename : List Char) (fsys : List Char → Bool)
    (cc r : Bool) (hdd : containsDotDot filename = false)
    (hsl : containsSlash filename = false) :
    ∀ ev ∈ (download_file r fsys cc filename).2, ∀ p ∈ fsEvPaths ev,
      p = pathJoin videos_dir filename ∨
      p = pathJoin videos_dir (replDotH264 filename) := by
  unfold download_file convert_h264_to_mp4
  split_ifs <;> simp_all [fsEvPaths, replDotH264_join]
  all_goals (split_ifs <;> simp_all [fsEvPaths, replDotH264_join])

/-- Every path the delete route touches, for a guard-passing filename, is
the join of the videos directory with the filename or a suffix-replaced
sibling. -/
theorem delete_file_paths (filename : List Char) (fsys : List Char → Bool)
    (rm r : Bool) (hdd : containsDotDot filename = false)
    (hsl : containsSlash filename = false) :
    ∀ ev ∈ (delete_file r fsys rm filename).2, ∀ p ∈ fsEvPaths ev,
      p = pathJoin videos_dir filename ∨
      p = pathJoin videos_dir (replDotMp4 filename) ∨
      p = pathJoin videos_dir (replDotH264 filename) := by
  unfold delete_file
  split_ifs <;> simp_all [fsEvPaths, replDotH264_join, replDotMp4_join]
  all_goals (split_ifs <;> simp_all [fsEvPaths, replDotH264_join, replDotMp4_join])

/-- C10: a filename containing `..` or `/` is rejected by both routes with
the 'Invalid filename' error before any filesystem access; consequently —
since accepted names pass through unchanged or with only a `.h264`/`.mp4`
suffix swap — every path either route ever stats, reads or removes names
an entry directly inside `/home/pi/videos`. -/
theorem traversal_guard (filename : List Char) (fsys : List Char → Bool)
    (cc rm r : Bool) :
    (containsDotDot filename = true ∨ containsSlash filename = true →
       download_file false fsys cc filename
         = (.text "Invalid filename".data 400, []) ∧
       delete_file false fsys rm filename
         = (.errDel "Invalid filename".data, [])) ∧
    (∀ ev ∈ (download_file r fsys cc filename).2, ∀ p ∈ fsEvPaths ev,
       entryInVideos p) ∧
    (∀ ev ∈ (delete_file r fsys rm filename).2, ∀ p ∈ fsEvPaths ev,
       entryInVideos p) := by
  refine ⟨?_, ?_, ?_⟩
  · intro hbad
    have hor : (containsDotDot filename || containsSlash filename) = true := by
      rcases hbad with h | h <;> simp [h]
    constructor
    · unfold download_file
      simp [hor]
    · unfold delete_file
      simp [hor]
  · intro ev hev p hp
    by_cases hdd : containsDotDot filename = true
    · exfalso
      revert hev
      unfold download_file
      cases r <;> simp [hdd]
    · by_cases hsl : containsSlash filename = true
      · exfalso
        revert hev
        unfold download_file
        cases r <;> simp [hsl]
      · have hdd1 : containsDotDot filename = false := by simpa using hdd
        have hsl1 : containsSlash filename = false := by simpa using hsl
        rcases download_file_paths filename fsys cc r hdd1 hsl1 ev hev p hp
          with rfl | rfl
        · exact entry_join filename hsl1 hdd1
        · exact entry_join _ (by rw [replDotH264_slash]; exact hsl1)
            (replDotH264_dotdot _ hdd1)
  · intro ev hev p hp
    by_cases hdd : containsDotDot filename = true
    · exfalso
      revert hev
      unfold delete_file
      cases r <;> simp [hdd]
    · by_cases hsl : containsSlash filename = true
      · exfalso
        revert hev
        unfold delete_file
        cases r <;> simp [hsl]
      · have hdd1 : containsDotDot filename = false := by simpa using hdd
        have hsl1 : containsSlash filename = false := by simpa using hsl
        rcases delete_file_paths filename fsys rm r hdd1 hsl1 ev hev p hp
          with rfl | rfl | rfl
        · exact entry_join filename hsl1 hdd1
        · exact entry_join _ (by rw [replDotMp4_slash]; exact hsl1)
            (replDotMp4_dotdot _ hdd1)
        · exact entry_join _ (by rw [replDotH264_slash]; exact hsl1)
            (replDotH264_dotdot _ hdd1)

/-- Witness for C10 at a concrete traversal attempt and a concrete benign
name. -/
theorem traversal_guard_witness :
    (containsDotDot "../etc/passwd".data = true ∨
     containsSlash "../etc/passwd".data = true →
       download_file false (fun _ => true) true "../etc/passwd".data
         = (.text "Invalid filename".data 400, []) ∧
       delete_file false (fun _ => true) true "../etc/passwd".data
         = (.errDel "Invalid filename".data, [])) ∧
    (∀ ev ∈ (download_file false (fun _ => true) true "../etc/passwd".data).2,
       ∀ p ∈ fsEvPaths ev, entryInVideos p) ∧
    (∀ ev ∈ (delete_file false (fun _ => true) true "../etc/passwd".data).2,
       ∀ p ∈ fsEvPaths ev, entryInVideos p) :=
  traversal_guard "../etc/passwd".data (fun _ => true) true true false

end PiCam
